import Mathlib

/-!
# Verification of the e-waste estimator front-end controller

Shallow embedding of the two script variants of the repository:

* `ScriptJs` — `src/frontend/script.js`: multipart POST variant; the only
  synchronous precondition is that a file is selected; a non-2xx response is
  reported using the server-provided `error` field when the body parses as
  JSON, else the status code and status text.
* `Part000` — `src/unnamed/part_000` (active handler, lines 1–105 and the
  helper functions): query-string GET variant; checks brand/model first and
  then the file; a non-2xx response is turned into a thrown error and lands
  in the generic connectivity message; a parsed result without a truthy
  `estimated_price` produces a soft-error status.  Lines 108–137 of that file
  are an unreachable leftover fragment (they sit outside any function and the
  file would not even parse with them); they are not part of any handler and
  are not embedded.

The DOM state touched by the handlers is modelled as an explicit record
`UIState`; each event handler becomes a pure function from the inputs and the
environment response to the new state together with the list of HTTP requests
it issued.  JavaScript strings are embedded as Lean strings, with `.length`
and `.substring` read over the character sequence; JS truthiness of the
optional string fields (`if (!result.estimated_price)`, `x || fallback`)
is embedded by `truthy` / `jsOr` below: both a missing field and the empty
string are falsy.
-/

/-- The CSS class currently carried by the status element: `showStatus` resets
the class list to the base `status` class and then optionally adds `error` or
`loading`. -/
inductive StatusStyle where
  | plain
  | error
  | loading
deriving DecidableEq, Repr

/-- The DOM state read and written by the handlers, one field per element
property the scripts touch. -/
structure UIState where
  /-- `fileNameDisplay.textContent` -/
  fileNameDisplay : String
  /-- whether `image-preview-container` carries the `hidden` class -/
  previewContainerHidden : Bool
  /-- `imagePreview.src` -/
  imagePreviewSrc : String
  /-- `statusMessage.textContent` -/
  statusText : String
  /-- class of the status element -/
  statusStyle : StatusStyle
  /-- whether `results-display` carries the `hidden` class -/
  resultsHidden : Bool
  /-- `priceRangeDisplay.textContent` -/
  priceRangeText : String
  /-- `detectedInfoDisplay.textContent` -/
  detectedInfoText : String
  /-- `submitButton.disabled` -/
  submitDisabled : Bool
  /-- `buttonText.textContent` -/
  buttonText : String
  /-- whether the spinner carries the `hidden` class -/
  spinnerHidden : Bool
deriving DecidableEq, Repr

/-- A file chosen in the file picker: its declared name and its data (the
data URI produced by the `FileReader` is a function of the data; we carry the
resulting URI directly). -/
structure SelectedFile where
  name : String
  dataUrl : String
deriving DecidableEq, Repr

/-- The values of the three text inputs plus the file input at the moment the
submit handler runs. -/
structure SubmitInput where
  file : Option SelectedFile
  brand : String
  model : String
  issues : String
deriving DecidableEq, Repr

/-- A JSON object body, restricted to the fields the scripts read.  `some b`
models a response body that parsed as a JSON object; a field that is absent
in the object is `none`. -/
structure JsonBody where
  estimated_price : Option String
  detected_info : Option String
  error : Option String
deriving DecidableEq, Repr

/-- An HTTP response as observed through the `fetch` API surface the scripts
use: `ok` is `200 ≤ status < 300`, and `jsonBody = none` models a body on
which `response.json()` throws. -/
structure HttpResponse where
  ok : Bool
  status : Nat
  statusText : String
  jsonBody : Option JsonBody
deriving DecidableEq, Repr

/-- Outcome of the single awaited `fetch`: either a response arrived, or the
transport failed and `fetch` rejected. -/
inductive FetchOutcome where
  | success (resp : HttpResponse)
  | networkError
deriving DecidableEq, Repr

/-- An outbound HTTP request as the scripts construct one: method, full URL,
and the multipart form fields (absent in the GET variant). -/
structure Request where
  method : String
  url : String
  formImage : Option SelectedFile
  formBrand : Option String
  formModel : Option String
  formIssues : Option String
deriving DecidableEq, Repr

/-- JS truthiness of an optional string field: both an absent field and the
empty string are falsy. -/
def truthy : Option String → Bool
  | none => false
  | some s => s ≠ ""

/-- JS `x || fallback` on an optional string field. -/
def jsOr (x : Option String) (fallback : String) : String :=
  match x with
  | none => fallback
  | some s => if s = "" then fallback else s

/-- JS `s.substring(0, n)`: the first `n` characters (all of `s` when it is
shorter). -/
def jsSubstringTo (s : String) (n : Nat) : String :=
  String.mk (s.data.take n)

/-- JS `s.trim()`: strip whitespace from both ends, written by structural
recursion over the character list. -/
def jsTrim (s : String) : String :=
  String.mk (((s.data.dropWhile Char.isWhitespace).reverse.dropWhile Char.isWhitespace).reverse)

/-- The fixed endpoint URL (`API_ENDPOINT` in both scripts). -/
def API_ENDPOINT : String := "https://ewaste-estimator-app.onrender.com"

/-- Hex digit used by the percent encoder, uppercase as `encodeURIComponent`
produces. -/
def hexDigitChar (n : Nat) : Char :=
  if n < 10 then Char.ofNat (48 + n) else Char.ofNat (55 + n)

/-- The UTF-8 byte sequence of a character, for percent-encoding. -/
def utf8ByteList (c : Char) : List Nat :=
  let n := c.toNat
  if n < 128 then [n]
  else if n < 2048 then [192 + n / 64, 128 + n % 64]
  else if n < 65536 then [224 + n / 4096, 128 + (n / 64) % 64, 128 + n % 64]
  else [240 + n / 262144, 128 + (n / 4096) % 64, 128 + (n / 64) % 64, 128 + n % 64]

/-- Characters `encodeURIComponent` leaves unescaped: alphanumerics and
`- _ . ! ~ * ' ( )` (the apostrophe appears here via its code point 39). -/
def uriUnescaped (c : Char) : Bool :=
  c.isAlpha || c.isDigit || c = '-' || c = '_' || c = '.' || c = '!' ||
    c = '~' || c = '*' || c.toNat = 39 || c = '(' || c = ')'

/-- Model of JS `encodeURIComponent`. -/
def encodeURIComponent (s : String) : String :=
  s.data.foldl
    (fun acc c =>
      if uriUnescaped c then acc.push c
      else (utf8ByteList c).foldl
        (fun a b => (a.push '%').push (hexDigitChar (b / 16)) |>.push (hexDigitChar (b % 16)))
        acc)
    ""

/-!
## Helper functions shared by both scripts

`setLoadingState`, `showStatus`, `clearStatus` and `displayResults` appear in
both files with the same behaviour (`script.js` writes the spinner class with
`classList.toggle('hidden', !isLoading)` where `part_000` uses an explicit
if/else; the resulting state is identical), so they are defined once.
-/

/-- `setLoadingState(isLoading)`: disable/enable the submit button, swap the
label, and show/hide the spinner. -/
def setLoadingState (isLoading : Bool) (s : UIState) : UIState :=
  { s with
    submitDisabled := isLoading
    buttonText := if isLoading then "Processing..." else "Get Estimate"
    spinnerHidden := !isLoading }

/-- `showStatus(message, type)`: set the status text and reset its class to
the base class plus `error`/`loading` according to `type`. -/
def showStatus (message : String) (type : String) (s : UIState) : UIState :=
  { s with
    statusText := message
    statusStyle :=
      if type = "error" then StatusStyle.error
      else if type = "loading" then StatusStyle.loading
      else StatusStyle.plain }

/-- `clearStatus()`: empty the status text and reset its class. -/
def clearStatus (s : UIState) : UIState :=
  { s with statusText := "", statusStyle := StatusStyle.plain }

/-- `displayResults(result)`: fill the price and detected-info text (with the
placeholder fallbacks of the `||` expressions) and reveal the results panel. -/
def displayResults (result : JsonBody) (s : UIState) : UIState :=
  { s with
    priceRangeText := jsOr result.estimated_price "N/A"
    detectedInfoText := jsOr result.detected_info "Analysis details not available."
    resultsHidden := false }

/-- The display name derived from a selected file name: `file.name.length >
30 ? file.name.substring(0, 27) + (ellipsis) : file.name` (identical in both
scripts). -/
def fileDisplayName (name : String) : String :=
  if name.length > 30 then jsSubstringTo name 27 ++ "..." else name

/-- The `reader.onload` callback shared by both change handlers: store the
data URI in the preview image and reveal the preview container.  It runs
asynchronously, strictly after the synchronous part of the change handler. -/
def readerOnLoad (dataUrl : String) (s : UIState) : UIState :=
  { s with imagePreviewSrc := dataUrl, previewContainerHidden := false }

/-- The three statements both submit handlers run right before the fetch:
`setLoadingState(true); clearStatus(); resultsDisplay.classList.add('hidden')`.
This is the state in force when the request is issued and awaited. -/
def prepareLoading (s : UIState) : UIState :=
  { clearStatus (setLoadingState true s) with resultsHidden := true }

namespace ScriptJs

/-!  Embedding of `src/frontend/script.js`. -/

/-- `resetUI()` of `script.js`: placeholder name, hidden preview, empty
preview source, cleared status, hidden results. -/
def resetUI (s : UIState) : UIState :=
  { clearStatus
      { s with
        fileNameDisplay := "No file chosen"
        previewContainerHidden := true
        imagePreviewSrc := "" } with
    resultsHidden := true }

/-- Synchronous part of the `change` handler of `script.js` (lines 35–50):
with a file, set the display name, start the reader (whose `onload` is
`readerOnLoad`), clear the status and hide the results; with no file, call
`resetUI`. -/
def handleFileChange (file : Option SelectedFile) (s : UIState) : UIState :=
  match file with
  | some f =>
      { clearStatus { s with fileNameDisplay := fileDisplayName f.name } with
        resultsHidden := true }
  | none => resetUI s

/-- The multipart POST request of `script.js` (lines 68–78). -/
def estimateRequest (file : SelectedFile) (brand model issues : String) : Request :=
  { method := "POST"
    url := API_ENDPOINT ++ "/estimate"
    formImage := some file
    formBrand := some (jsTrim brand)
    formModel := some (jsTrim model)
    formIssues := some (jsTrim issues) }

/-- The status message of the non-ok branch of `script.js` (lines 84–92):
start from `Error: <status> - <statusText>` and replace it with
`Error: <error>` when the body parses as JSON and its `error` field is
truthy. -/
def serviceErrorMessage (resp : HttpResponse) : String :=
  match resp.jsonBody with
  | some body =>
      match body.error with
      | some e => if e = "" then "Error: " ++ toString resp.status ++ " - " ++ resp.statusText
                  else "Error: " ++ e
      | none => "Error: " ++ toString resp.status ++ " - " ++ resp.statusText
  | none => "Error: " ++ toString resp.status ++ " - " ++ resp.statusText

/-- The `submit` handler of `script.js` (lines 53–103), as a function from
the form inputs, the fetch outcome granted by the environment and the state
before the event to the state after the handler resolves, paired with the
list of requests it issued.  A 2xx response whose body does not parse as
JSON makes `response.json()` throw inside the `try`, landing in the network
error message; every path through the `try` runs the `finally`. -/
def handleSubmit (inp : SubmitInput) (outcome : FetchOutcome) (s : UIState) :
    UIState × List Request :=
  match inp.file with
  | none => (showStatus "Please select an image file first." "error" s, [])
  | some file =>
      let s1 := prepareLoading s
      let req := estimateRequest file inp.brand inp.model inp.issues
      let s2 :=
        match outcome with
        | FetchOutcome.networkError =>
            { showStatus
                "Network Error: Could not connect to the estimation server. Please try again later."
                "error" s1 with resultsHidden := true }
        | FetchOutcome.success resp =>
            if resp.ok then
              match resp.jsonBody with
              | some result => displayResults result s1
              | none =>
                  { showStatus
                      "Network Error: Could not connect to the estimation server. Please try again later."
                      "error" s1 with resultsHidden := true }
            else
              { showStatus (serviceErrorMessage resp) "error" s1 with
                resultsHidden := true }
      (setLoadingState false s2, [req])

end ScriptJs

namespace Part000

/-!  Embedding of the active handlers of `src/unnamed/part_000`. -/

/-- Synchronous part of the `change` handler of `part_000` (lines 25–48):
with a file, as in `script.js`; with no file, only the display name, the
preview visibility and the preview source are reset — the status and the
results panel are left untouched. -/
def handleFileChange (file : Option SelectedFile) (s : UIState) : UIState :=
  match file with
  | some f =>
      { clearStatus { s with fileNameDisplay := fileDisplayName f.name } with
        resultsHidden := true }
  | none =>
      { s with
        fileNameDisplay := "No file chosen"
        previewContainerHidden := true
        imagePreviewSrc := "#" }

/-- The GET query-string request of `part_000` (lines 81–83); the image is
not transmitted. -/
def estimateRequest (brand model issues : String) : Request :=
  { method := "GET"
    url := API_ENDPOINT ++ "/estimate?brand=" ++ encodeURIComponent brand ++
      "&model=" ++ encodeURIComponent model ++ "&issues=" ++ encodeURIComponent issues
    formImage := none
    formBrand := none
    formModel := none
    formIssues := none }

/-- The `submit` handler of `part_000` (lines 51–105).  Brand/model are
validated before the file; a non-ok response is thrown (line 86) and caught
by the generic connectivity handler; a parsed result whose
`estimated_price` is not truthy yields the soft-error status; the `finally`
runs on every path through the `try`. -/
def handleSubmit (inp : SubmitInput) (outcome : FetchOutcome) (s : UIState) :
    UIState × List Request :=
  let brand := jsTrim inp.brand
  let model := jsTrim inp.model
  let issues := jsTrim inp.issues
  if brand = "" ∨ model = "" then
    (showStatus "⚠️ Please enter both brand and model." "error" s, [])
  else
    match inp.file with
    | none => (showStatus "⚠️ Please select an image file first." "error" s, [])
    | some _ =>
        let s1 := prepareLoading s
        let req := estimateRequest brand model issues
        let s2 :=
          match outcome with
          | FetchOutcome.networkError =>
              showStatus "❌ Could not connect to the estimation server. Try again later."
                "error" s1
          | FetchOutcome.success resp =>
              if resp.ok then
                match resp.jsonBody with
                | some result =>
                    if truthy result.estimated_price then displayResults result s1
                    else showStatus "⚠️ No valid estimate found." "error" s1
                | none =>
                    showStatus "❌ Could not connect to the estimation server. Try again later."
                      "error" s1
              else
                showStatus "❌ Could not connect to the estimation server. Try again later."
                  "error" s1
        (setLoadingState false s2, [req])

end Part000

/-- The state machine labels of the spec, read off the modelled DOM state:
the results panel is visible. -/
def ResultShown (s : UIState) : Prop := s.resultsHidden = false

/-- An error status message is displayed. -/
def ErrorShown (s : UIState) : Prop :=
  s.statusStyle = StatusStyle.error ∧ s.statusText ≠ ""

/-- The busy indicator of `Submitting`: button disabled, label swapped,
spinner visible. -/
def Submitting (s : UIState) : Prop :=
  s.submitDisabled = true ∧ s.spinnerHidden = false

/-!
## Concrete fixtures used by counterexamples and witnesses
-/

/-- A state in which a previous interaction left a visible result and an
error status, with the submit control enabled and idle. -/
def s0 : UIState :=
  { fileNameDisplay := "old.png", previewContainerHidden := false,
    imagePreviewSrc := "data:old", statusText := "old status",
    statusStyle := StatusStyle.error, resultsHidden := false,
    priceRangeText := "$10-20", detectedInfoText := "old info",
    submitDisabled := false, buttonText := "Get Estimate", spinnerHidden := true }

/-- A concrete selected file. -/
def fileA : SelectedFile := { name := "device.jpg", dataUrl := "data:image/jpeg;base64,AAAA" }

/-- A complete, valid form input. -/
def inpValid : SubmitInput :=
  { file := some fileA, brand := "Acme", model := "X100", issues := "wont turn on" }

/-- A form input with no file and empty brand and model. -/
def inpEmpty : SubmitInput := { file := none, brand := "", model := "", issues := "" }

/-- A form input with no file but valid brand and model. -/
def inpNoFile : SubmitInput := { file := none, brand := "Acme", model := "X100", issues := "" }

/-- The 500 response of the spec scenario, body parsing as
`{"error":"model unavailable"}`. -/
def resp500 : HttpResponse :=
  { ok := false, status := 500, statusText := "Internal Server Error",
    jsonBody := some { estimated_price := none, detected_info := none,
                       error := some "model unavailable" } }

/-- A 2xx response whose JSON body lacks the `estimated_price` field. -/
def resp200noPrice : HttpResponse :=
  { ok := true, status := 200, statusText := "OK",
    jsonBody := some { estimated_price := none, detected_info := some "Acme X100 smartphone",
                       error := none } }

/-!
## Claims
-/

/-- C7: for every selected file the displayed name is the file name verbatim
when its length is at most 30 characters, and exactly the first 27 characters
of the name followed by the 3-character ellipsis when it is longer than 30
characters. -/
theorem claim7_filename_truncation (name : String) :
    (name.length ≤ 30 → fileDisplayName name = name) ∧
    (name.length > 30 →
      fileDisplayName name = jsSubstringTo name 27 ++ "..." ∧
      (jsSubstringTo name 27).length = 27 ∧
      ("..." : String).length = 3) := by
  obtain ⟨l⟩ := name
  refine ⟨fun h => ?_, fun h => ⟨?_, ?_, rfl⟩⟩
  · simp only [fileDisplayName, String.length_mk] at h ⊢
    simp [Nat.not_lt.mpr h]
  · simp only [fileDisplayName, String.length_mk] at h ⊢
    simp [h]
  · simp only [String.length_mk] at h
    simp only [jsSubstringTo, String.length_mk, List.length_take]
    omega

/-- C7 witness: a 43-character name is truncated to its first 27 characters
plus the ellipsis, and a 10-character name is shown verbatim. -/
theorem claim7_filename_truncation_witness :
    (("a-really-long-filename-exceeding-thirty.png" : String).length > 30 ∧
      fileDisplayName "a-really-long-filename-exceeding-thirty.png" =
        jsSubstringTo "a-really-long-filename-exceeding-thirty.png" 27 ++ "..." ∧
      (jsSubstringTo "a-really-long-filename-exceeding-thirty.png" 27).length = 27 ∧
      ("..." : String).length = 3) ∧
    (("device.jpg" : String).length ≤ 30 ∧ fileDisplayName "device.jpg" = "device.jpg") :=
  ⟨⟨by decide,
    (claim7_filename_truncation "a-really-long-filename-exceeding-thirty.png").2 (by decide)⟩,
   by decide,
   (claim7_filename_truncation "device.jpg").1 (by decide)⟩

/-- C8: selecting a new file clears the previously displayed result and
status synchronously in the change handler — the status text is emptied, its
class reset and the results panel hidden — while the preview container and
preview source are untouched by the synchronous part and only the later
`reader.onload` callback reveals the preview, in both variants. -/
theorem claim8_new_file_clears (f : SelectedFile) (s : UIState) :
    ((ScriptJs.handleFileChange (some f) s).statusText = "" ∧
     (ScriptJs.handleFileChange (some f) s).statusStyle = StatusStyle.plain ∧
     (ScriptJs.handleFileChange (some f) s).resultsHidden = true ∧
     (ScriptJs.handleFileChange (some f) s).previewContainerHidden = s.previewContainerHidden ∧
     (ScriptJs.handleFileChange (some f) s).imagePreviewSrc = s.imagePreviewSrc ∧
     (readerOnLoad f.dataUrl (ScriptJs.handleFileChange (some f) s)).previewContainerHidden
       = false ∧
     (readerOnLoad f.dataUrl (ScriptJs.handleFileChange (some f) s)).imagePreviewSrc
       = f.dataUrl) ∧
    ((Part000.handleFileChange (some f) s).statusText = "" ∧
     (Part000.handleFileChange (some f) s).statusStyle = StatusStyle.plain ∧
     (Part000.handleFileChange (some f) s).resultsHidden = true ∧
     (Part000.handleFileChange (some f) s).previewContainerHidden = s.previewContainerHidden ∧
     (Part000.handleFileChange (some f) s).imagePreviewSrc = s.imagePreviewSrc ∧
     (readerOnLoad f.dataUrl (Part000.handleFileChange (some f) s)).previewContainerHidden
       = false ∧
     (readerOnLoad f.dataUrl (Part000.handleFileChange (some f) s)).imagePreviewSrc
       = f.dataUrl) := by
  simp [ScriptJs.handleFileChange, Part000.handleFileChange, clearStatus, readerOnLoad]

/-- C9 counterexample: in the `part_000` variant, clearing the file selection
while an error status and a result are displayed leaves both on screen: from
the fixture state the status text is still the old one and the results panel
is still visible, so the claim that every variant clears prior status and
result on a cleared selection is false. -/
theorem claim9_counterexample :
    (Part000.handleFileChange none s0).statusText = "old status" ∧
    (Part000.handleFileChange none s0).statusText ≠ "" ∧
    (Part000.handleFileChange none s0).resultsHidden = false := by
  refine ⟨rfl, ?_, rfl⟩
  decide

/-- C9 (amended): on a change event with no file, the `script.js` variant
resets the display name to the placeholder, hides the preview, empties the
preview source, clears the status and hides the results; the `part_000`
variant resets only the display name, preview visibility and preview source,
leaving the status and the results panel untouched. -/
theorem claim9_reset_on_clear (s : UIState) :
    ((ScriptJs.handleFileChange none s).fileNameDisplay = "No file chosen" ∧
     (ScriptJs.handleFileChange none s).previewContainerHidden = true ∧
     (ScriptJs.handleFileChange none s).imagePreviewSrc = "" ∧
     (ScriptJs.handleFileChange none s).statusText = "" ∧
     (ScriptJs.handleFileChange none s).statusStyle = StatusStyle.plain ∧
     (ScriptJs.handleFileChange none s).resultsHidden = true) ∧
    ((Part000.handleFileChange none s).fileNameDisplay = "No file chosen" ∧
     (Part000.handleFileChange none s).previewContainerHidden = true ∧
     (Part000.handleFileChange none s).imagePreviewSrc = "#" ∧
     (Part000.handleFileChange none s).statusText = s.statusText ∧
     (Part000.handleFileChange none s).statusStyle = s.statusStyle ∧
     (Part000.handleFileChange none s).resultsHidden = s.resultsHidden) := by
  simp [ScriptJs.handleFileChange, Part000.handleFileChange, ScriptJs.resetUI, clearStatus]

/-- C10: a submit that fails a synchronous precondition changes no UI state
other than the status message and issues no request: in `script.js` a missing
file, and in `part_000` an empty trimmed brand or model or (when those pass)
a missing file, each make the handler return `showStatus` applied to the
prior state, so the submit control, spinner, button label, results panel and
every other field are exactly as before, and the request list is empty. -/
theorem claim10_validation_frame (inp : SubmitInput) (outcome : FetchOutcome) (s : UIState) :
    (inp.file = none →
      (ScriptJs.handleSubmit inp outcome s).1
        = showStatus "Please select an image file first." "error" s ∧
      (ScriptJs.handleSubmit inp outcome s).1.submitDisabled = s.submitDisabled ∧
      (ScriptJs.handleSubmit inp outcome s).1.spinnerHidden = s.spinnerHidden ∧
      (ScriptJs.handleSubmit inp outcome s).1.buttonText = s.buttonText ∧
      (ScriptJs.handleSubmit inp outcome s).1.resultsHidden = s.resultsHidden ∧
      (ScriptJs.handleSubmit inp outcome s).2 = []) ∧
    (jsTrim inp.brand = "" ∨ jsTrim inp.model = "" →
      (Part000.handleSubmit inp outcome s).1
        = showStatus "⚠️ Please enter both brand and model." "error" s ∧
      (Part000.handleSubmit inp outcome s).1.submitDisabled = s.submitDisabled ∧
      (Part000.handleSubmit inp outcome s).1.spinnerHidden = s.spinnerHidden ∧
      (Part000.handleSubmit inp outcome s).1.buttonText = s.buttonText ∧
      (Part000.handleSubmit inp outcome s).1.resultsHidden = s.resultsHidden ∧
      (Part000.handleSubmit inp outcome s).2 = []) ∧
    (jsTrim inp.brand ≠ "" → jsTrim inp.model ≠ "" → inp.file = none →
      (Part000.handleSubmit inp outcome s).1
        = showStatus "⚠️ Please select an image file first." "error" s ∧
      (Part000.handleSubmit inp outcome s).1.submitDisabled = s.submitDisabled ∧
      (Part000.handleSubmit inp outcome s).1.spinnerHidden = s.spinnerHidden ∧
      (Part000.handleSubmit inp outcome s).1.buttonText = s.buttonText ∧
      (Part000.handleSubmit inp outcome s).1.resultsHidden = s.resultsHidden ∧
      (Part000.handleSubmit inp outcome s).2 = []) := by
  refine ⟨fun hf => ?_, fun hbm => ?_, fun hb hm hf => ?_⟩
  · simp [ScriptJs.handleSubmit, hf, showStatus]
  · simp [Part000.handleSubmit, hbm, showStatus]
  · simp [Part000.handleSubmit, hb, hm, hf, showStatus]

/-- C10 witness: at the fixture inputs the validation-failure frame holds
concretely for both variants. -/
theorem claim10_validation_frame_witness :
    (inpNoFile.file = none ∧
      (ScriptJs.handleSubmit inpNoFile FetchOutcome.networkError s0).1
        = showStatus "Please select an image file first." "error" s0 ∧
      (ScriptJs.handleSubmit inpNoFile FetchOutcome.networkError s0).2 = []) ∧
    (jsTrim inpEmpty.brand = "" ∧
      (Part000.handleSubmit inpEmpty FetchOutcome.networkError s0).1
        = showStatus "⚠️ Please enter both brand and model." "error" s0 ∧
      (Part000.handleSubmit inpEmpty FetchOutcome.networkError s0).2 = []) ∧
    (jsTrim inpNoFile.brand ≠ "" ∧ jsTrim inpNoFile.model ≠ "" ∧ inpNoFile.file = none ∧
      (Part000.handleSubmit inpNoFile FetchOutcome.networkError s0).1
        = showStatus "⚠️ Please select an image file first." "error" s0 ∧
      (Part000.handleSubmit inpNoFile FetchOutcome.networkError s0).2 = []) :=
  ⟨⟨rfl,
    ((claim10_validation_frame inpNoFile FetchOutcome.networkError s0).1 rfl).1,
    ((claim10_validation_frame inpNoFile FetchOutcome.networkError s0).1 rfl).2.2.2.2.2⟩,
   ⟨by decide,
    ((claim10_validation_frame inpEmpty FetchOutcome.networkError s0).2.1 (Or.inl (by decide))).1,
    ((claim10_validation_frame inpEmpty FetchOutcome.networkError s0).2.1
      (Or.inl (by decide))).2.2.2.2.2⟩,
   by decide, by decide, rfl,
   ((claim10_validation_frame inpNoFile FetchOutcome.networkError s0).2.2
      (by decide) (by decide) rfl).1,
   ((claim10_validation_frame inpNoFile FetchOutcome.networkError s0).2.2
      (by decide) (by decide) rfl).2.2.2.2.2⟩

/-- Helper: `String.append` is associative (proved over the character lists). -/
theorem stringAppendAssoc (a b c : String) : a ++ b ++ c = a ++ (b ++ c) := by
  obtain ⟨la⟩ := a
  obtain ⟨lb⟩ := b
  obtain ⟨lc⟩ := c
  show String.mk ((la ++ lb) ++ lc) = String.mk (la ++ (lb ++ lc))
  rw [List.append_assoc]

/-- Helper: every branch of the non-2xx status message of `script.js` starts
with the text `Error: `, so it is never the empty string. -/
theorem serviceErrorMessageNeEmpty (resp : HttpResponse) :
    ScriptJs.serviceErrorMessage resp ≠ "" := by
  have h7 : ("Error: " : String).length = 7 := rfl
  have h3 : (" - " : String).length = 3 := rfl
  have key : ∀ s : String, 7 ≤ s.length → s ≠ "" := by
    intro s hs h
    rw [h] at hs
    simp [String.length_empty] at hs
  obtain ⟨ok, status, stext, jsonBody⟩ := resp
  have hfall : ("Error: " ++ toString status ++ " - " ++ stext : String) ≠ "" := by
    apply key
    simp only [String.length_append, h7, h3]
    omega
  rcases jsonBody with _ | body
  · exact hfall
  · rcases body with ⟨p, d, err⟩
    rcases err with _ | e
    · exact hfall
    · show (if e = "" then "Error: " ++ toString status ++ " - " ++ stext
            else "Error: " ++ e) ≠ ""
      by_cases he : e = ""
      · rw [if_pos he]
        exact hfall
      · rw [if_neg he]
        apply key
        simp only [String.length_append, h7]
        omega

/-- Helper: once its preconditions pass, the `script.js` submit handler ends
in `ResultShown` or `ErrorShown` and not in `Submitting`, whatever the fetch
outcome. -/
theorem scriptjsTerminal (inp : SubmitInput) (outcome : FetchOutcome) (s : UIState)
    (f : SelectedFile) (hf : inp.file = some f) :
    (ResultShown (ScriptJs.handleSubmit inp outcome s).1 ∨
      ErrorShown (ScriptJs.handleSubmit inp outcome s).1) ∧
    ¬ Submitting (ScriptJs.handleSubmit inp outcome s).1 := by
  constructor
  · rcases outcome with resp | _
    · by_cases hok : resp.ok
      · rcases hbody : resp.jsonBody with _ | result
        · right
          constructor <;>
            simp [ScriptJs.handleSubmit, hf, hok, hbody, setLoadingState, showStatus,
              ErrorShown]
        · left
          simp [ScriptJs.handleSubmit, hf, hok, hbody, setLoadingState, displayResults,
            ResultShown]
      · right
        refine ⟨?_, ?_⟩
        · simp [ScriptJs.handleSubmit, hf, hok, setLoadingState, showStatus, ErrorShown]
        · simpa [ScriptJs.handleSubmit, hf, hok, setLoadingState, showStatus, ErrorShown]
            using serviceErrorMessageNeEmpty resp
    · right
      constructor <;>
        simp [ScriptJs.handleSubmit, hf, setLoadingState, showStatus, ErrorShown]
  · simp [ScriptJs.handleSubmit, hf, setLoadingState, Submitting]

/-- Helper: once its preconditions pass, the `part_000` submit handler ends in
`ResultShown` or `ErrorShown` and not in `Submitting`, whatever the fetch
outcome. -/
theorem part000Terminal (inp : SubmitInput) (outcome : FetchOutcome) (s : UIState)
    (f : SelectedFile) (hf : inp.file = some f)
    (hb : jsTrim inp.brand ≠ "") (hm : jsTrim inp.model ≠ "") :
    (ResultShown (Part000.handleSubmit inp outcome s).1 ∨
      ErrorShown (Part000.handleSubmit inp outcome s).1) ∧
    ¬ Submitting (Part000.handleSubmit inp outcome s).1 := by
  constructor
  · rcases outcome with resp | _
    · by_cases hok : resp.ok
      · rcases hbody : resp.jsonBody with _ | result
        · right
          constructor <;>
            simp [Part000.handleSubmit, hf, hb, hm, hok, hbody, setLoadingState,
              showStatus, ErrorShown]
        · by_cases hp : truthy result.estimated_price
          · left
            simp [Part000.handleSubmit, hf, hb, hm, hok, hbody, hp, setLoadingState,
              displayResults, ResultShown]
          · right
            constructor <;>
              simp [Part000.handleSubmit, hf, hb, hm, hok, hbody, hp, setLoadingState,
                showStatus, ErrorShown]
      · right
        constructor <;>
          simp [Part000.handleSubmit, hf, hb, hm, hok, setLoadingState, showStatus,
            ErrorShown]
    · right
      constructor <;>
        simp [Part000.handleSubmit, hf, hb, hm, setLoadingState, showStatus, ErrorShown]
  · simp [Part000.handleSubmit, hf, hb, hm, setLoadingState, Submitting]

/-- C1: when the synchronous preconditions pass (a file is selected and, for
the stricter variant, trimmed brand and model are non-empty) and the submit
control was enabled before the event, both submit handlers leave the control
enabled after resolving — equal to its state before — with the label restored
and the spinner hidden, on every outcome; and the state in force while the
request is awaited has the control disabled, the busy label and the spinner
visible. -/
theorem claim1_loading_frame (inp : SubmitInput) (outcome : FetchOutcome)
    (s t : UIState) (f : SelectedFile)
    (hf : inp.file = some f)
    (hb : jsTrim inp.brand ≠ "") (hm : jsTrim inp.model ≠ "")
    (hs : s.submitDisabled = false) (ht : t.submitDisabled = false) :
    ((ScriptJs.handleSubmit inp outcome s).1.submitDisabled = s.submitDisabled ∧
     (ScriptJs.handleSubmit inp outcome s).1.buttonText = "Get Estimate" ∧
     (ScriptJs.handleSubmit inp outcome s).1.spinnerHidden = true) ∧
    ((Part000.handleSubmit inp outcome t).1.submitDisabled = t.submitDisabled ∧
     (Part000.handleSubmit inp outcome t).1.buttonText = "Get Estimate" ∧
     (Part000.handleSubmit inp outcome t).1.spinnerHidden = true) ∧
    ((prepareLoading s).submitDisabled = true ∧
     (prepareLoading s).buttonText = "Processing..." ∧
     (prepareLoading s).spinnerHidden = false) := by
  refine ⟨⟨?_, ?_, ?_⟩, ⟨?_, ?_, ?_⟩, ?_, ?_, ?_⟩ <;>
    simp [ScriptJs.handleSubmit, Part000.handleSubmit, hf, hb, hm, hs, ht,
      setLoadingState, prepareLoading, clearStatus]

/-- C1 witness: at the fixture input, valid state and a transport failure,
the control ends enabled with its idle label and hidden spinner, and the
awaiting state is disabled and busy. -/
theorem claim1_loading_frame_witness :
    inpValid.file = some fileA ∧ jsTrim inpValid.brand ≠ "" ∧ jsTrim inpValid.model ≠ "" ∧
    s0.submitDisabled = false ∧
    (ScriptJs.handleSubmit inpValid FetchOutcome.networkError s0).1.submitDisabled
      = s0.submitDisabled ∧
    (Part000.handleSubmit inpValid FetchOutcome.networkError s0).1.submitDisabled
      = s0.submitDisabled ∧
    (prepareLoading s0).submitDisabled = true :=
  ⟨rfl, by decide, by decide, rfl,
   (claim1_loading_frame inpValid FetchOutcome.networkError s0 s0 fileA rfl
      (by decide) (by decide) rfl rfl).1.1,
   (claim1_loading_frame inpValid FetchOutcome.networkError s0 s0 fileA rfl
      (by decide) (by decide) rfl rfl).2.1.1,
   (claim1_loading_frame inpValid FetchOutcome.networkError s0 s0 fileA rfl
      (by decide) (by decide) rfl rfl).2.2.1⟩

/-- C2: with a selected file and non-empty trimmed brand and model, each
submit handler issues exactly one request, whose URL is the fixed endpoint's
`/estimate` path (followed in the query-string variant by the encoded query),
and ends in `ResultShown` or `ErrorShown`, never remaining in `Submitting`. -/
theorem claim2_single_request_terminal (inp : SubmitInput) (outcome : FetchOutcome)
    (s t : UIState) (f : SelectedFile)
    (hf : inp.file = some f)
    (hb : jsTrim inp.brand ≠ "") (hm : jsTrim inp.model ≠ "") :
    ((ScriptJs.handleSubmit inp outcome s).2
        = [ScriptJs.estimateRequest f inp.brand inp.model inp.issues] ∧
     (ScriptJs.handleSubmit inp outcome s).2.length = 1 ∧
     (ScriptJs.estimateRequest f inp.brand inp.model inp.issues).url
        = API_ENDPOINT ++ "/estimate" ∧
     (ResultShown (ScriptJs.handleSubmit inp outcome s).1 ∨
       ErrorShown (ScriptJs.handleSubmit inp outcome s).1) ∧
     ¬ Submitting (ScriptJs.handleSubmit inp outcome s).1) ∧
    ((Part000.handleSubmit inp outcome t).2
        = [Part000.estimateRequest (jsTrim inp.brand) (jsTrim inp.model)
            (jsTrim inp.issues)] ∧
     (Part000.handleSubmit inp outcome t).2.length = 1 ∧
     (∃ rest,
       (Part000.estimateRequest (jsTrim inp.brand) (jsTrim inp.model)
           (jsTrim inp.issues)).url
         = API_ENDPOINT ++ "/estimate" ++ rest) ∧
     (ResultShown (Part000.handleSubmit inp outcome t).1 ∨
       ErrorShown (Part000.handleSubmit inp outcome t).1) ∧
     ¬ Submitting (Part000.handleSubmit inp outcome t).1) := by
  refine ⟨⟨?_, ?_, rfl, (scriptjsTerminal inp outcome s f hf).1,
           (scriptjsTerminal inp outcome s f hf).2⟩,
          ⟨?_, ?_, ⟨"?brand=" ++ encodeURIComponent (jsTrim inp.brand) ++ "&model=" ++
              encodeURIComponent (jsTrim inp.model) ++ "&issues=" ++
              encodeURIComponent (jsTrim inp.issues), ?_⟩,
           (part000Terminal inp outcome t f hf hb hm).1,
           (part000Terminal inp outcome t f hf hb hm).2⟩⟩
  · simp [ScriptJs.handleSubmit, hf]
  · simp [ScriptJs.handleSubmit, hf]
  · simp [Part000.handleSubmit, hf, hb, hm]
  · simp [Part000.handleSubmit, hf, hb, hm]
  · rfl

/-- C2 witness: at the fixture input and the 500 response, each handler
issued exactly one request to the `/estimate` path and ended in a terminal
state. -/
theorem claim2_single_request_terminal_witness :
    inpValid.file = some fileA ∧ jsTrim inpValid.brand ≠ "" ∧ jsTrim inpValid.model ≠ "" ∧
    (ScriptJs.handleSubmit inpValid (FetchOutcome.success resp500) s0).2.length = 1 ∧
    (Part000.handleSubmit inpValid (FetchOutcome.success resp500) s0).2.length = 1 ∧
    (ResultShown (ScriptJs.handleSubmit inpValid (FetchOutcome.success resp500) s0).1 ∨
      ErrorShown (ScriptJs.handleSubmit inpValid (FetchOutcome.success resp500) s0).1) ∧
    ¬ Submitting (Part000.handleSubmit inpValid (FetchOutcome.success resp500) s0).1 :=
  ⟨rfl, by decide, by decide,
   (claim2_single_request_terminal inpValid (FetchOutcome.success resp500) s0 s0 fileA rfl
      (by decide) (by decide)).1.2.1,
   (claim2_single_request_terminal inpValid (FetchOutcome.success resp500) s0 s0 fileA rfl
      (by decide) (by decide)).2.2.1,
   (claim2_single_request_terminal inpValid (FetchOutcome.success resp500) s0 s0 fileA rfl
      (by decide) (by decide)).1.2.2.2.1,
   (claim2_single_request_terminal inpValid (FetchOutcome.success resp500) s0 s0 fileA rfl
      (by decide) (by decide)).2.2.2.2.2⟩

/-- C3 counterexample: in the `part_000` variant a 500 response whose body
parses as `{"error":"model unavailable"}` does not surface the server
message — the generic connectivity message is shown instead — so the claim
is false for every submission through that variant. -/
theorem claim3_counterexample :
    (Part000.handleSubmit inpValid (FetchOutcome.success resp500) s0).1.statusText
      = "❌ Could not connect to the estimation server. Try again later." ∧
    (Part000.handleSubmit inpValid (FetchOutcome.success resp500) s0).1.statusText
      ≠ "Error: model unavailable" := by
  refine ⟨rfl, ?_⟩
  decide

/-- C3 (amended): in the multipart variant (`script.js`) a non-2xx response
is reported with the server-provided `error` field, as `Error: <error>`,
when the body parses as JSON with a non-empty `error`, and with the numeric
status code plus status text otherwise (body not JSON, or `error` absent or
empty), always as an error status; in the query-string variant (`part_000`)
a non-2xx response is thrown and the generic connectivity message is shown
instead. -/
theorem claim3_service_error_message (inp : SubmitInput) (s t : UIState)
    (f : SelectedFile) (resp : HttpResponse)
    (hf : inp.file = some f) (hok : resp.ok = false)
    (hb : jsTrim inp.brand ≠ "") (hm : jsTrim inp.model ≠ "") :
    (∀ body e, resp.jsonBody = some body → body.error = some e → e ≠ "" →
      (ScriptJs.handleSubmit inp (FetchOutcome.success resp) s).1.statusText
        = "Error: " ++ e) ∧
    (resp.jsonBody = none →
      (ScriptJs.handleSubmit inp (FetchOutcome.success resp) s).1.statusText
        = "Error: " ++ toString resp.status ++ " - " ++ resp.statusText) ∧
    (∀ body, resp.jsonBody = some body → truthy body.error = false →
      (ScriptJs.handleSubmit inp (FetchOutcome.success resp) s).1.statusText
        = "Error: " ++ toString resp.status ++ " - " ++ resp.statusText) ∧
    (ScriptJs.handleSubmit inp (FetchOutcome.success resp) s).1.statusStyle
      = StatusStyle.error ∧
    (Part000.handleSubmit inp (FetchOutcome.success resp) t).1.statusText
      = "❌ Could not connect to the estimation server. Try again later." := by
  refine ⟨?_, ?_, ?_, ?_, ?_⟩
  · intro body e hbody herr hne
    simp [ScriptJs.handleSubmit, hf, hok, setLoadingState, showStatus,
      ScriptJs.serviceErrorMessage, hbody, herr, hne]
  · intro hbody
    simp [ScriptJs.handleSubmit, hf, hok, setLoadingState, showStatus,
      ScriptJs.serviceErrorMessage, hbody]
  · intro body hbody htr
    rcases hberr : body.error with _ | e
    · simp [ScriptJs.handleSubmit, hf, hok, setLoadingState, showStatus,
        ScriptJs.serviceErrorMessage, hbody, hberr]
    · have he : e = "" := by
        simpa [truthy, hberr] using htr
      subst he
      simp [ScriptJs.handleSubmit, hf, hok, setLoadingState, showStatus,
        ScriptJs.serviceErrorMessage, hbody, hberr]
  · simp [ScriptJs.handleSubmit, hf, hok, setLoadingState, showStatus]
  · simp [Part000.handleSubmit, hf, hb, hm, hok, setLoadingState, showStatus]

/-- C3 witness: the spec scenario, instantiated in the multipart variant: a
500 response with body `{"error":"model unavailable"}` yields the status
`Error: model unavailable` there, and the generic connectivity message in
the query-string variant. -/
theorem claim3_service_error_message_witness :
    inpValid.file = some fileA ∧ resp500.ok = false ∧
    resp500.jsonBody = some { estimated_price := none, detected_info := none,
                              error := some "model unavailable" } ∧
    ("model unavailable" : String) ≠ "" ∧
    (ScriptJs.handleSubmit inpValid (FetchOutcome.success resp500) s0).1.statusText
      = "Error: model unavailable" ∧
    (Part000.handleSubmit inpValid (FetchOutcome.success resp500) s0).1.statusText
      = "❌ Could not connect to the estimation server. Try again later." :=
  ⟨rfl, rfl, rfl, by decide,
   (claim3_service_error_message inpValid s0 s0 fileA resp500 rfl rfl
      (by decide) (by decide)).1 _ "model unavailable" rfl rfl (by decide),
   (claim3_service_error_message inpValid s0 s0 fileA resp500 rfl rfl
      (by decide) (by decide)).2.2.2.2⟩

/-- C4 counterexample: in the multipart variant (`script.js`) a 2xx response
whose JSON body lacks `estimated_price` does transition to `ResultShown`,
with the placeholder price and no soft-error status, so the claim is false
for that variant. -/
theorem claim4_counterexample :
    ResultShown (ScriptJs.handleSubmit inpValid
        (FetchOutcome.success resp200noPrice) s0).1 ∧
    (ScriptJs.handleSubmit inpValid (FetchOutcome.success resp200noPrice) s0).1.statusText
      = "" ∧
    (ScriptJs.handleSubmit inpValid (FetchOutcome.success resp200noPrice) s0).1.priceRangeText
      = "N/A" :=
  ⟨rfl, rfl, rfl⟩

/-- C4 (amended): on a 2xx response parsing as JSON whose `estimated_price`
is absent, the query-string variant (`part_000`) shows the "No valid
estimate found" soft-error status and keeps the results panel hidden, while
the multipart variant (`script.js`) instead transitions to `ResultShown`,
rendering the `N/A` placeholder price and leaving the status empty. -/
theorem claim4_soft_error (inp : SubmitInput) (s t : UIState) (f : SelectedFile)
    (resp : HttpResponse) (body : JsonBody)
    (hf : inp.file = some f) (hb : jsTrim inp.brand ≠ "") (hm : jsTrim inp.model ≠ "")
    (hok : resp.ok = true) (hbody : resp.jsonBody = some body)
    (hp : body.estimated_price = none) :
    ((Part000.handleSubmit inp (FetchOutcome.success resp) t).1.statusText
        = "⚠️ No valid estimate found." ∧
     (Part000.handleSubmit inp (FetchOutcome.success resp) t).1.statusStyle
        = StatusStyle.error ∧
     (Part000.handleSubmit inp (FetchOutcome.success resp) t).1.resultsHidden = true) ∧
    ((ScriptJs.handleSubmit inp (FetchOutcome.success resp) s).1.resultsHidden = false ∧
     (ScriptJs.handleSubmit inp (FetchOutcome.success resp) s).1.priceRangeText = "N/A" ∧
     (ScriptJs.handleSubmit inp (FetchOutcome.success resp) s).1.statusText = "") := by
  refine ⟨⟨?_, ?_, ?_⟩, ?_, ?_, ?_⟩ <;>
    simp [Part000.handleSubmit, ScriptJs.handleSubmit, hf, hb, hm, hok, hbody, hp,
      truthy, displayResults, jsOr, prepareLoading, clearStatus, setLoadingState,
      showStatus]

/-- C4 witness: the 2xx response without `estimated_price`, at the fixture
input: soft-error status in the query-string variant, `ResultShown` with the
placeholder in the multipart variant. -/
theorem claim4_soft_error_witness :
    inpValid.file = some fileA ∧ resp200noPrice.ok = true ∧
    resp200noPrice.jsonBody = some ⟨none, some "Acme X100 smartphone", none⟩ ∧
    (Part000.handleSubmit inpValid (FetchOutcome.success resp200noPrice) s0).1.statusText
      = "⚠️ No valid estimate found." ∧
    (ScriptJs.handleSubmit inpValid (FetchOutcome.success resp200noPrice) s0).1.resultsHidden
      = false :=
  ⟨rfl, rfl, rfl,
   (claim4_soft_error inpValid s0 s0 fileA resp200noPrice _ rfl (by decide) (by decide)
      rfl rfl rfl).1.1,
   (claim4_soft_error inpValid s0 s0 fileA resp200noPrice _ rfl (by decide) (by decide)
      rfl rfl rfl).2.1⟩

/-- C5 counterexample: in the stricter variant (`part_000`), when both the
file is missing and brand/model are empty, the reported error is the missing
brand/model message, not the no-file message the claim requires. -/
theorem claim5_counterexample :
    inpEmpty.file = none ∧
    (Part000.handleSubmit inpEmpty FetchOutcome.networkError s0).1.statusText
      = "⚠️ Please enter both brand and model." ∧
    (Part000.handleSubmit inpEmpty FetchOutcome.networkError s0).1.statusText
      ≠ "⚠️ Please select an image file first." := by
  refine ⟨rfl, rfl, ?_⟩
  decide

/-- C5 (amended): the stricter variant (`part_000`) checks its preconditions
synchronously before any network activity, but in the opposite order to the
claim: brand and model are validated first, failing with the missing
brand/model error even when no file is selected, and the file check runs
only after they pass; `script.js` checks only the file. Each failing check
issues no request. -/
theorem claim5_precondition_order (inp : SubmitInput) (outcome : FetchOutcome)
    (s : UIState) :
    (jsTrim inp.brand = "" ∨ jsTrim inp.model = "" →
      (Part000.handleSubmit inp outcome s).1.statusText
        = "⚠️ Please enter both brand and model." ∧
      (Part000.handleSubmit inp outcome s).2 = []) ∧
    (jsTrim inp.brand ≠ "" → jsTrim inp.model ≠ "" → inp.file = none →
      (Part000.handleSubmit inp outcome s).1.statusText
        = "⚠️ Please select an image file first." ∧
      (Part000.handleSubmit inp outcome s).2 = []) ∧
    (inp.file = none →
      (ScriptJs.handleSubmit inp outcome s).1.statusText
        = "Please select an image file first." ∧
      (ScriptJs.handleSubmit inp outcome s).2 = []) := by
  refine ⟨fun hbm => ?_, fun hb hm hf => ?_, fun hf => ?_⟩
  · constructor <;> simp [Part000.handleSubmit, hbm, showStatus]
  · constructor <;> simp [Part000.handleSubmit, hb, hm, hf, showStatus]
  · constructor <;> simp [ScriptJs.handleSubmit, hf, showStatus]

/-- C5 witness: with everything missing the brand/model error wins in the
stricter variant; with valid brand/model and no file, the no-file error is
reported; `script.js` reports the no-file error directly. -/
theorem claim5_precondition_order_witness :
    (jsTrim inpEmpty.brand = "" ∧
      (Part000.handleSubmit inpEmpty FetchOutcome.networkError s0).1.statusText
        = "⚠️ Please enter both brand and model.") ∧
    (jsTrim inpNoFile.brand ≠ "" ∧ jsTrim inpNoFile.model ≠ "" ∧ inpNoFile.file = none ∧
      (Part000.handleSubmit inpNoFile FetchOutcome.networkError s0).1.statusText
        = "⚠️ Please select an image file first.") ∧
    ((ScriptJs.handleSubmit inpNoFile FetchOutcome.networkError s0).1.statusText
        = "Please select an image file first.") :=
  ⟨⟨by decide,
    ((claim5_precondition_order inpEmpty FetchOutcome.networkError s0).1
      (Or.inl (by decide))).1⟩,
   ⟨by decide, by decide, rfl,
    ((claim5_precondition_order inpNoFile FetchOutcome.networkError s0).2.1
      (by decide) (by decide) rfl).1⟩,
   ((claim5_precondition_order inpNoFile FetchOutcome.networkError s0).2.2 rfl).1⟩

/-- C6 counterexample: in the stricter variant (`part_000`) a submit with no
file selected but empty brand/model does not show the select-an-image
message: the brand/model message is shown instead (no request is issued), so
the claim's universal message statement is false. -/
theorem claim6_counterexample :
    inpEmpty.file = none ∧
    (Part000.handleSubmit inpEmpty FetchOutcome.networkError s0).2 = [] ∧
    (Part000.handleSubmit inpEmpty FetchOutcome.networkError s0).1.statusText
      ≠ "⚠️ Please select an image file first." := by
  refine ⟨rfl, rfl, ?_⟩
  decide

/-- C6 (amended): a submit with no file selected never issues a network
request in either variant and the handler returns before constructing one;
the select-an-image validation message is shown by `script.js`
unconditionally, and by `part_000` whenever its earlier brand/model check
passes — when that check fails its own message is shown instead, still with
no network call. -/
theorem claim6_no_file_no_request (inp : SubmitInput) (outcome : FetchOutcome)
    (s t : UIState) (hf : inp.file = none) :
    ((ScriptJs.handleSubmit inp outcome s).2 = [] ∧
     (ScriptJs.handleSubmit inp outcome s).1.statusText
        = "Please select an image file first." ∧
     (ScriptJs.handleSubmit inp outcome s).1.statusStyle = StatusStyle.error) ∧
    ((Part000.handleSubmit inp outcome t).2 = [] ∧
     (jsTrim inp.brand ≠ "" → jsTrim inp.model ≠ "" →
       (Part000.handleSubmit inp outcome t).1.statusText
         = "⚠️ Please select an image file first." ∧
       (Part000.handleSubmit inp outcome t).1.statusStyle = StatusStyle.error)) := by
  constructor
  · refine ⟨?_, ?_, ?_⟩ <;> simp [ScriptJs.handleSubmit, hf, showStatus]
  · constructor
    · by_cases hb : jsTrim inp.brand = ""
      · simp [Part000.handleSubmit, hb]
      · by_cases hm : jsTrim inp.model = ""
        · simp [Part000.handleSubmit, hb, hm]
        · simp [Part000.handleSubmit, hb, hm, hf]
    · intro hb hm
      constructor <;> simp [Part000.handleSubmit, hb, hm, hf, showStatus]

/-- C6 witness: with no file but valid brand/model, neither variant issues a
request and both show the select-an-image message. -/
theorem claim6_no_file_no_request_witness :
    inpNoFile.file = none ∧
    (ScriptJs.handleSubmit inpNoFile FetchOutcome.networkError s0).2 = [] ∧
    (Part000.handleSubmit inpNoFile FetchOutcome.networkError s0).2 = [] ∧
    (ScriptJs.handleSubmit inpNoFile FetchOutcome.networkError s0).1.statusText
      = "Please select an image file first." ∧
    (Part000.handleSubmit inpNoFile FetchOutcome.networkError s0).1.statusText
      = "⚠️ Please select an image file first." :=
  ⟨rfl,
   (claim6_no_file_no_request inpNoFile FetchOutcome.networkError s0 s0 rfl).1.1,
   (claim6_no_file_no_request inpNoFile FetchOutcome.networkError s0 s0 rfl).2.1,
   (claim6_no_file_no_request inpNoFile FetchOutcome.networkError s0 s0 rfl).1.2.1,
   ((claim6_no_file_no_request inpNoFile FetchOutcome.networkError s0 s0 rfl).2.2
      (by decide) (by decide)).1⟩
